import Mathlib

/-!
Verification of the serverless user-CRUD core: a shallow embedding of
`src/utils/dynamodb.py` and the four lambda handlers
(`create_user`, `get_user`, `list_users`, `update_user`), with theorems
settling the specified CRUD/validation contract.

Python values are modelled by the inductive `PyVal`; dictionaries are
association lists keyed by strings; the ambient clock (`datetime.utcnow`)
and the uuid generator are modelled as indexed streams supplied by an
environment, each call consuming the next index.  Timestamps are natural
numbers (ISO-8601 strings compare chronologically, so `Nat` order is the
order on the real strings).  Fallible Python code returns `Except PyErr`.
-/

/-- A Python runtime error kind, as far as the embedded code distinguishes them. -/
inductive PyErr where
  | typeError
  | valueError
  deriving DecidableEq, Repr

/-- A Python value, restricted to the shapes the handlers traffic in. -/
inductive PyVal where
  | none
  | bool (b : Bool)
  | int (n : Int)
  | str (s : String)
  | list (l : List PyVal)
  | dict (l : List (String × PyVal))

/-- A Python dict with string keys, as an association list (first binding wins,
mirroring dict lookup; real dicts have no duplicate keys). -/
abbrev PyDict := List (String × PyVal)

/-- Generic association-list lookup for string-keyed maps (dicts, the table,
path/query parameter maps): the first binding of `k`, if any. -/
def assocGet {α : Type} (d : List (String × α)) (k : String) : Option α :=
  (d.find? (fun kv => kv.1 = k)).map (fun kv => kv.2)

/-- Key assignment: replaces the binding in place when the key is present
(Python dict / DynamoDB attribute semantics), appends it otherwise. -/
def assocSet {α : Type} (d : List (String × α)) (k : String) (v : α) : List (String × α) :=
  if (d.find? (fun kv => kv.1 = k)).isSome then
    d.map (fun kv => if kv.1 = k then (k, v) else kv)
  else d ++ [(k, v)]

/-- `d.get(k)` as `Option`: the first binding of `k`, if any. -/
def dictGet (d : PyDict) (k : String) : Option PyVal :=
  assocGet d k

/-- `d.get(k, v)`: lookup with a default. -/
def dictGetD (d : PyDict) (k : String) (v : PyVal) : PyVal :=
  (dictGet d k).getD v

/-- `k in d` for a dict. -/
def dictHas (d : PyDict) (k : String) : Bool :=
  (dictGet d k).isSome

/-- Python truthiness for the embedded value shapes. -/
def pyTruthy : PyVal → Bool
  | .none => false
  | .bool b => b
  | .int n => n != 0
  | .str s => s != ""
  | .list l => !l.isEmpty
  | .dict l => !l.isEmpty

/-- Python `int(s)` on a string: optional surrounding spaces, an optional
sign, then a nonempty run of decimal digits; anything else raises
`ValueError` (here: `none`). -/
def pyIntString (s : String) : Option Int :=
  let core := ((s.toList.dropWhile (fun c => c = ' ')).reverse.dropWhile
    (fun c => c = ' ')).reverse
  let signed : Option (Bool × List Char) :=
    match core with
    | '+' :: rest => some (false, rest)
    | '-' :: rest => some (true, rest)
    | rest => some (false, rest)
  match signed with
  | some (neg, ds) =>
    if ds ≠ [] ∧ ds.all Char.isDigit then
      let n : Nat := ds.foldl (fun a c => a * 10 + (c.toNat - 48)) 0
      some (if neg then -(n : Int) else (n : Int))
    else Option.none
  | Option.none => Option.none

/-- Python `int(v)`: ints and bools convert, strings parse via `pyIntString`,
everything else raises (`TypeError`/`ValueError`, here collapsed to `none`
because the only caller catches both). -/
def pyToInt : PyVal → Option Int
  | .int n => some n
  | .bool b => some (if b then 1 else 0)
  | .str s => pyIntString s
  | _ => Option.none

/-- Python `str(v)` for the value shapes fed to the phone check.  Container
reprs are abbreviated to their (non-digit) bracket delimiters, which is
observationally equivalent for the all-digits test performed on the result. -/
def pyStrOf : PyVal → String
  | .str s => s
  | .int n => toString n
  | .bool b => if b then "True" else "False"
  | .none => "None"
  | .list _ => "[]"
  | .dict _ => "\x7b\x7d"

/-- Python `s.isdigit()` (ASCII digits; false on the empty string). -/
def pyIsdigit (s : String) : Bool :=
  !s.isEmpty && s.toList.all Char.isDigit

/-- Character membership in a string (`c in s` for a single character). -/
def strContainsChar (s : String) (c : Char) : Bool :=
  s.toList.contains c

/-- Python `s.replace(c, "")` for a single-character pattern: deletes every
occurrence of the character. -/
def strRemoveChar (s : String) (c : Char) : String :=
  String.mk (s.toList.filter (fun x => x ≠ c))

/-- Python `'@' in v`: substring test on strings, membership on containers,
`TypeError` on non-container values such as ints. -/
def pyContainsAt : PyVal → Except PyErr Bool
  | .str s => .ok (strContainsChar s '@')
  | .list l => .ok (l.any (fun x => match x with | .str s => s = "@" | _ => false))
  | .dict l => .ok (l.any (fun kv => kv.1 = "@"))
  | _ => .error .typeError

/-- The age rule of `validate_user_data` (lines 228-234), applied to the
error list accumulated so far. -/
def validateAge (user_data : PyDict) (errors : List String) : List String :=
  if dictHas user_data "age" then
    match pyToInt (dictGetD user_data "age" .none) with
    | some age =>
      if age < 0 ∨ age > 150 then errors ++ ["Age must be between 0 and 150"]
      else errors
    | Option.none => errors ++ ["Age must be a number"]
  else errors

/-- The `phone` local of the phone rule (line 237): `str()` of the phone
value with "-" and " " removed. -/
def phoneDigits (user_data : PyDict) : String :=
  strRemoveChar (strRemoveChar (pyStrOf (dictGetD user_data "phone" .none)) '-') ' '

/-- The phone rule of `validate_user_data` (lines 236-239). -/
def validatePhone (user_data : PyDict) (errors : List String) : List String :=
  if dictHas user_data "phone" && pyTruthy (dictGetD user_data "phone" .none) then
    if !pyIsdigit (phoneDigits user_data) ∨ (phoneDigits user_data).length < 10 then
      errors ++ ["Phone number must be valid"]
    else errors
  else errors

/-- The name and email rules of `validate_user_data` (lines 218-225): the
name and required/format email checks; the `'@' in email` membership test on
a truthy non-container email value raises, aborting the whole call. -/
def validateNameEmail (user_data : PyDict) : Except PyErr (List String) :=
  let errors : List String := []
  let errors :=
    if !pyTruthy (dictGetD user_data "name" .none) then
      errors ++ ["Name is required"]
    else errors
  if !pyTruthy (dictGetD user_data "email" .none) then
    .ok (errors ++ ["Email is required"])
  else
    match pyContainsAt (dictGetD user_data "email" (.str "")) with
    | .error err => .error err
    | .ok hasAt => .ok (if !hasAt then errors ++ ["Email must be valid"] else errors)

/-- `validate_user_data` (dynamodb.py lines 206-241): collects error strings
rule by rule; only the email membership test can raise. -/
def validate_user_data (user_data : PyDict) : Except PyErr (List String) :=
  match validateNameEmail user_data with
  | .error err => .error err
  | .ok errors => .ok (validatePhone user_data (validateAge user_data errors))

/-- The ambient effects of an invocation: the `i`-th `datetime.utcnow()` call
returns `time i` (a timestamp; `Nat` ordered as the ISO strings are) and the
`i`-th `uuid.uuid4()` call returns `uuid i`. -/
structure Env where
  time : Nat → Nat
  uuid : Nat → String

/-- The mutable world: the DynamoDB table (keyed by `user_id`) plus the
indices of the next clock and uuid calls. -/
structure DB where
  table : List (String × PyDict)
  tCnt : Nat
  uCnt : Nat

/-- `create_user` (dynamodb.py lines 20-61): generate an id, build the item
(two separate `utcnow()` calls for `created_at` and `updated_at`), append the
optional fields present in the input, and put the item. -/
def create_user (e : Env) (db : DB) (user_data : PyDict) : PyDict × DB :=
  let user_id := e.uuid db.uCnt
  let item : PyDict := [
    ("user_id", .str user_id),
    ("name", dictGetD user_data "name" .none),
    ("email", dictGetD user_data "email" .none),
    ("created_at", .int (e.time db.tCnt)),
    ("updated_at", .int (e.time (db.tCnt + 1)))]
  let item := if dictHas user_data "age" then item ++ [("age", dictGetD user_data "age" .none)] else item
  let item := if dictHas user_data "phone" then item ++ [("phone", dictGetD user_data "phone" .none)] else item
  let item := if dictHas user_data "address" then item ++ [("address", dictGetD user_data "address" .none)] else item
  (item, ⟨assocSet db.table user_id item, db.tCnt + 2, db.uCnt + 1⟩)

/-- `get_user` (dynamodb.py lines 63-89): point lookup, `None` when absent. -/
def get_user (db : DB) (user_id : String) : Option PyDict :=
  assocGet db.table user_id

/-- Modelled from the spec: the external DynamoDB `table.update_item` call
(with `ReturnValues='ALL_NEW'`) is not part of this repository.  Per the spec
(§4.2: Update "returns absent-result signal if the key does not exist"), the
operation applies the attribute assignments when the key exists, returning the
full new item, and signals absence otherwise, leaving the table unchanged. -/
def table_update_item (table : List (String × PyDict)) (user_id : String)
    (t : Nat) (applied : List (String × PyVal)) :
    Option PyDict × List (String × PyDict) :=
  match assocGet table user_id with
  | Option.none => (Option.none, table)
  | some item =>
    let item := assocSet item "updated_at" (.int t)
    let item := applied.foldl (fun it kv => assocSet it kv.1 kv.2) item
    (some item, assocSet table user_id item)

/-- The update whitelist of dynamodb.py line 151. -/
def updateWhitelist : List String := ["name", "email", "age", "phone", "address"]

/-- `update_user` (dynamodb.py lines 129-175): one `utcnow()` call for
`updated_at`, whitelist-filtered field assignments, then the table update. -/
def update_user (e : Env) (db : DB) (user_id : String) (update_data : PyDict) :
    Option PyDict × DB :=
  let t := e.time db.tCnt
  let applied := update_data.filter (fun kv => updateWhitelist.contains kv.1)
  let (res, table) := table_update_item db.table user_id t applied
  (res, ⟨table, db.tCnt + 1, db.uCnt⟩)

/-- The item `table_update_item` computes for `update_user`'s arguments when
the key exists: `updated_at` set to the current clock reading, then the
whitelisted payload assignments applied in payload order. -/
def appliedItem (e : Env) (db : DB) (d : PyDict) (item : PyDict) : PyDict :=
  (d.filter (fun kv => updateWhitelist.contains kv.1)).foldl
    (fun it kv => assocSet it kv.1 kv.2)
    (assocSet item "updated_at" (.int (e.time db.tCnt)))

/-- The API Gateway response envelope as the code builds it.  The `body`
field holds whatever Python value the code stores there: a JSON string would
be `PyVal.str`, a structured dict `PyVal.dict`. -/
structure ApiResponse where
  statusCode : Nat
  headers : List (String × String)
  body : PyVal

/-- The fixed CORS header map of `format_response`. -/
def corsHeaders : List (String × String) := [
  ("Content-Type", "application/json"),
  ("Access-Control-Allow-Origin", "*"),
  ("Access-Control-Allow-Headers", "Content-Type,X-Amz-Date,Authorization,X-Api-Key,X-Amz-Security-Token"),
  ("Access-Control-Allow-Methods", "GET,POST,PUT,DELETE,OPTIONS")]

/-- `format_response` (dynamodb.py lines 243-263): wraps the status code and
the body value; the body dict is stored as-is (the code performs no
`json.dumps`). -/
def format_response (status_code : Nat) (body : PyVal) : ApiResponse :=
  ⟨status_code, corsHeaders, body⟩

/-- `format_error_response` (lines 265-279): one `utcnow()` call for the
timestamp. -/
def format_error_response (e : Env) (db : DB) (status_code : Nat) (message : String) :
    ApiResponse × DB :=
  (format_response status_code (.dict [
    ("error", .str message),
    ("timestamp", .int (e.time db.tCnt))]),
   ⟨db.table, db.tCnt + 1, db.uCnt⟩)

/-- `format_success_response` (lines 281-294): status 200, one `utcnow()`. -/
def format_success_response (e : Env) (db : DB) (data : PyVal) : ApiResponse × DB :=
  (format_response 200 (.dict [
    ("data", data),
    ("timestamp", .int (e.time db.tCnt))]),
   ⟨db.table, db.tCnt + 1, db.uCnt⟩)

/-- The observable outcome of `json.loads` on a present request body:
either the string failed to parse (`JSONDecodeError`) or it parsed to a
Python value. -/
inductive BodyVal where
  | malformed
  | parsed (v : PyVal)

/-- An API Gateway event, restricted to the fields the handlers read:
`body` (absent, malformed, or parsed), `pathParameters` and
`queryStringParameters`. -/
structure Event where
  body : Option BodyVal
  pathParameters : List (String × String)
  queryStringParameters : Option (List (String × String))

/-- The Create handler (create_user/lambda_function.py lines 16-55).  A body
parsing to a non-dict value makes `validate_user_data`'s first `.get` raise
`AttributeError`, which only the handler's generic `except` catches. -/
def create_lambda_handler (e : Env) (db : DB) (event : Event) : ApiResponse × DB :=
  match event.body with
  | Option.none => format_error_response e db 400 "Request body is required"
  | some .malformed => format_error_response e db 400 "Invalid JSON in request body"
  | some (.parsed (.dict user_data)) =>
    match validate_user_data user_data with
    | .error _ => format_error_response e db 500 "Internal server error"
    | .ok (err :: errs) =>
      format_error_response e db 400
        ("Validation errors: " ++ String.intercalate ", " (err :: errs))
    | .ok [] =>
      let (created_user, db) := create_user e db user_data
      format_success_response e db (.dict [
        ("message", .str "User created successfully"),
        ("user", .dict created_user)])
  | some (.parsed _) => format_error_response e db 500 "Internal server error"

/-- The Update handler (update_user/lambda_function.py lines 16-64).  The
`user_id` path parameter is checked first; `if not user_id` is Python
truthiness, so an empty string also fails it. -/
def update_lambda_handler (e : Env) (db : DB) (event : Event) : ApiResponse × DB :=
  match assocGet event.pathParameters "user_id" with
  | Option.none => format_error_response e db 400 "User ID is required"
  | some uid =>
    if uid = "" then format_error_response e db 400 "User ID is required"
    else
      match event.body with
      | Option.none => format_error_response e db 400 "Request body is required"
      | some .malformed => format_error_response e db 400 "Invalid JSON in request body"
      | some (.parsed (.dict update_data)) =>
        match validate_user_data update_data with
        | .error _ => format_error_response e db 500 "Internal server error"
        | .ok (err :: errs) =>
          format_error_response e db 400
            ("Validation errors: " ++ String.intercalate ", " (err :: errs))
        | .ok [] =>
          let (updated_user, db) := update_user e db uid update_data
          match updated_user with
          | some u => format_success_response e db (.dict [
              ("message", .str "User updated successfully"),
              ("user", .dict u)])
          | Option.none => format_error_response e db 404 "User not found"
      | some (.parsed _) => format_error_response e db 500 "Internal server error"

/-- The Get handler (get_user/lambda_function.py lines 16-49). -/
def get_lambda_handler (e : Env) (db : DB) (event : Event) : ApiResponse × DB :=
  match assocGet event.pathParameters "user_id" with
  | Option.none => format_error_response e db 400 "User ID is required"
  | some uid =>
    if uid = "" then format_error_response e db 400 "User ID is required"
    else
      match get_user db uid with
      | some user => format_success_response e db (.dict [("user", .dict user)])
      | Option.none => format_error_response e db 404 "User not found"

/-- Clamping of the requested limit (list_users/lambda_function.py lines
36-39). -/
def clampLimit (n : Int) : Int :=
  if n > 1000 then 1000 else if n < 1 then 1 else n

/-- The limit computation of the List handler (lines 31-39):
`int(query_parameters.get('limit', 100))`, then the clamp.  The `int()`
conversion raises `ValueError` on a non-numeric string, before any clamping
happens. -/
def list_effective_limit (queryStringParameters : Option (List (String × String))) :
    Except PyErr Int :=
  let q := queryStringParameters.getD []
  match assocGet q "limit" with
  | Option.none => .ok (clampLimit 100)
  | some s =>
    match pyIntString s with
    | some n => .ok (clampLimit n)
    | Option.none => .error .valueError

/-- Modelled from the spec: the external `table.scan` bounded by `Limit`,
resuming after the `ExclusiveStartKey` when one is supplied; returns a page
of items and, when more remain, the last evaluated key (§4.2 List). -/
def table_scan (table : List (String × PyDict)) (limit : Nat) (start : Option String) :
    List (String × PyDict) × Option String :=
  let rest : List (String × PyDict) := match start with
    | Option.none => table
    | some k => (table.dropWhile (fun kv => decide (kv.1 ≠ k))).drop 1
  let page := rest.take limit
  let lastKey := if limit < rest.length then page.getLast?.map Prod.fst else Option.none
  (page, lastKey)

/-- `list_users` (dynamodb.py lines 91-127): bounded scan (the pagination
token is only forwarded when truthy, line 109), returning users, count and
the next token. -/
def list_users (db : DB) (limit : Int) (last_evaluated_key : Option String) : PyDict :=
  let start := match last_evaluated_key with
    | some k => if k ≠ "" then some k else Option.none
    | Option.none => Option.none
  let (page, lastKey) := table_scan db.table limit.toNat start
  [("users", .list (page.map (fun kv => .dict kv.2))),
   ("count", .int page.length),
   ("next_token", match lastKey with | some k => .str k | Option.none => .none)]

/-- The List handler (list_users/lambda_function.py lines 16-52). -/
def list_lambda_handler (e : Env) (db : DB) (event : Event) : ApiResponse × DB :=
  match list_effective_limit event.queryStringParameters with
  | .error _ => format_error_response e db 500 "Internal server error"
  | .ok limit =>
    let q := event.queryStringParameters.getD []
    let result := list_users db limit (assocGet q "last_evaluated_key")
    format_success_response e db (.dict [
      ("users", dictGetD result "users" .none),
      ("count", dictGetD result "count" .none),
      ("next_token", dictGetD result "next_token" .none)])

/-- The error message stored in a response body, when the body is the error
dict the formatters build. -/
def bodyErrorMsg (r : ApiResponse) : Option PyVal :=
  match r.body with
  | .dict d => dictGet d "error"
  | _ => Option.none

/-- A concrete environment whose i-th clock call returns i. -/
def envId : Env := ⟨fun i => i, fun _ => "uid-0"⟩

/-- A concrete environment with a constant clock. -/
def envConst : Env := ⟨fun _ => 0, fun _ => "uid-0"⟩

/-- The empty world. -/
def db0 : DB := ⟨[], 0, 0⟩

/-- A concrete stored item, used in concrete instantiations. -/
def itemA : PyDict := [("user_id", .str "u1"), ("name", .str "A"), ("email", .str "a@b"),
  ("created_at", .int 0), ("updated_at", .int 0)]

/-- A concrete one-record world holding `itemA` under key "u1". -/
def dbA : DB := ⟨[("u1", itemA)], 0, 0⟩

/-- A concrete update payload with one whitelisted and one unknown key. -/
def payloadA : PyDict := [("name", .str "B"), ("junk", .int 1)]

/-! Smoke checks of the validator on concrete records. -/

example : validate_user_data [("name", .str "John Doe"), ("email", .str "john@example.com"), ("age", .int 30)] = .ok [] := rfl

example : validate_user_data [("name", .str "Bob"), ("email", .int 5)] = .error .typeError := rfl

example : validate_user_data [] = .ok ["Name is required", "Email is required"] := rfl

example : validate_user_data [("name", .str "A"), ("email", .str "a@b"), ("age", .str "abc")] = .ok ["Age must be a number"] := rfl

example : validate_user_data [("name", .str "A"), ("email", .str "a@b"), ("phone", .str "123-456-7890")] = .ok [] := rfl

example : validate_user_data [("name", .str "A"), ("email", .str "a@b"), ("phone", .str "123")] = .ok ["Phone number must be valid"] := rfl

theorem assocGet_cons {α : Type} (k' : String) (v' : α) (tl : List (String × α)) (k : String) :
    assocGet ((k', v') :: tl) k = if k' = k then some v' else assocGet tl k := by
  by_cases h : k' = k <;> simp [assocGet, List.find?_cons, h]

theorem assocSet_cons_ne {α : Type} (k' : String) (v' : α) (tl : List (String × α))
    (k : String) (v : α) (h : k' ≠ k) :
    assocSet ((k', v') :: tl) k v = (k', v') :: assocSet tl k v := by
  by_cases h2 : (tl.find? (fun kv => kv.1 = k)).isSome <;>
    simp [assocSet, List.find?_cons, h, h2]

theorem assocGet_assocSet_self {α : Type} (d : List (String × α)) (k : String) (v : α) :
    assocGet (assocSet d k v) k = some v := by
  induction d with
  | nil => simp [assocGet, assocSet]
  | cons hd tl ih =>
    obtain ⟨k', v'⟩ := hd
    by_cases h : k' = k
    · subst h
      simp [assocSet, assocGet, List.find?_cons]
    · rw [assocSet_cons_ne k' v' tl k v h, assocGet_cons]
      simp [h, ih]

theorem assocGet_mapSet {α : Type} (d : List (String × α)) (k k' : String) (v : α)
    (h : k ≠ k') :
    assocGet (d.map (fun kv => if kv.1 = k then (k, v) else kv)) k' = assocGet d k' := by
  induction d with
  | nil => rfl
  | cons hd tl ih =>
    obtain ⟨k0, v0⟩ := hd
    by_cases h0 : k0 = k
    · subst h0
      rw [List.map_cons]
      simp only [if_pos rfl]
      rw [assocGet_cons, assocGet_cons]
      simp [h, ih]
    · rw [List.map_cons]
      simp only [if_neg h0]
      rw [assocGet_cons, assocGet_cons]
      by_cases h1 : k0 = k' <;> simp [h1, ih]

theorem assocGet_append_single_ne {α : Type} (d : List (String × α)) (k k' : String) (v : α)
    (h : k ≠ k') : assocGet (d ++ [(k, v)]) k' = assocGet d k' := by
  induction d with
  | nil => simp [assocGet_cons, h, assocGet]
  | cons hd tl ih =>
    obtain ⟨k0, v0⟩ := hd
    rw [List.cons_append, assocGet_cons, assocGet_cons]
    by_cases h1 : k0 = k' <;> simp [h1, ih]

theorem assocGet_assocSet_ne {α : Type} (d : List (String × α)) (k k' : String) (v : α)
    (h : k ≠ k') : assocGet (assocSet d k v) k' = assocGet d k' := by
  unfold assocSet
  by_cases h2 : (d.find? (fun kv => kv.1 = k)).isSome
  · rw [if_pos h2]
    exact assocGet_mapSet d k k' v h
  · rw [if_neg h2]
    exact assocGet_append_single_ne d k k' v h

theorem mem_of_assocGet_eq_some {α : Type} (d : List (String × α)) (k : String) (v : α)
    (h : assocGet d k = some v) : (k, v) ∈ d := by
  induction d with
  | nil => cases h
  | cons hd tl ih =>
    obtain ⟨k0, v0⟩ := hd
    rw [assocGet_cons] at h
    by_cases h0 : k0 = k
    · rw [if_pos h0] at h
      cases h
      subst h0
      exact List.mem_cons_self _ _
    · rw [if_neg h0] at h
      exact List.mem_cons_of_mem _ (ih h)

theorem assocGet_foldSet_not_mem (l : List (String × PyVal)) (d : PyDict) (k : String)
    (h : ∀ kv ∈ l, kv.1 ≠ k) :
    assocGet (l.foldl (fun it kv => assocSet it kv.1 kv.2) d) k = assocGet d k := by
  induction l generalizing d with
  | nil => rfl
  | cons hd tl ih =>
    rw [List.foldl_cons, ih _ (fun kv hm => h kv (List.mem_cons_of_mem _ hm))]
    exact assocGet_assocSet_ne _ _ _ _ (h hd (List.mem_cons_self _ _))

theorem assocGet_foldSet_mem (l : List (String × PyVal)) (d : PyDict) (k : String)
    (v : PyVal) (hnd : (l.map Prod.fst).Nodup) (hm : (k, v) ∈ l) :
    assocGet (l.foldl (fun it kv => assocSet it kv.1 kv.2) d) k = some v := by
  induction l generalizing d with
  | nil => cases hm
  | cons hd tl ih =>
    rw [List.foldl_cons]
    rcases List.mem_cons.mp hm with heq | hm2
    · subst heq
      rw [assocGet_foldSet_not_mem]
      · exact assocGet_assocSet_self _ _ _
      · intro kv hkv hk
        rw [List.map_cons, List.nodup_cons] at hnd
        exact hnd.1 (hk ▸ List.mem_map.mpr ⟨kv, hkv, rfl⟩)
    · rw [List.map_cons, List.nodup_cons] at hnd
      exact ih _ hnd.2 hm2

/-- C9: a List request whose `limit` query parameter is a string that does not
parse as an integer (here "abc") is answered with status 500 and the generic
"Internal server error" message, not a 400 client-input error: the `int()`
conversion raises before clamping and only the catch-all handles it. -/
theorem list_handler_nonnumeric_limit_500 :
    (list_lambda_handler envId db0 ⟨Option.none, [], some [("limit", "abc")]⟩).1.statusCode = 500
  ∧ bodyErrorMsg (list_lambda_handler envId db0 ⟨Option.none, [], some [("limit", "abc")]⟩).1
      = some (.str "Internal server error") :=
  ⟨rfl, rfl⟩

/-- C10: on the record `{name: "Bob", email: 5}` — a truthy non-string email —
the validator raises `TypeError` from the `'@' in email` test instead of
returning an error list, and both the Create and the Update handler turn that
into a 500 "Internal server error" rather than a 400 validation error. -/
theorem validate_email_typeerror_500 :
    validate_user_data [("name", .str "Bob"), ("email", .int 5)] = .error .typeError
  ∧ (create_lambda_handler envId db0
      ⟨some (.parsed (.dict [("name", .str "Bob"), ("email", .int 5)])), [], Option.none⟩).1.statusCode = 500
  ∧ bodyErrorMsg (create_lambda_handler envId db0
      ⟨some (.parsed (.dict [("name", .str "Bob"), ("email", .int 5)])), [], Option.none⟩).1
      = some (.str "Internal server error")
  ∧ (update_lambda_handler envId db0
      ⟨some (.parsed (.dict [("name", .str "Bob"), ("email", .int 5)])), [("user_id", "u1")], Option.none⟩).1.statusCode = 500
  ∧ bodyErrorMsg (update_lambda_handler envId db0
      ⟨some (.parsed (.dict [("name", .str "Bob"), ("email", .int 5)])), [("user_id", "u1")], Option.none⟩).1
      = some (.str "Internal server error") :=
  ⟨rfl, rfl, rfl, rfl, rfl⟩

/-- C2: the envelope body is not a JSON string.  `format_response` stores the
structured error/success dict itself under `body` (the code performs no
`json.dumps`), shown here at `format_error_response(404, "User not found")`
and at a success envelope: the body equals the dict value and differs from
every `PyVal.str`. -/
theorem format_response_body_not_json_string :
    (format_error_response envId db0 404 "User not found").1.body
      = PyVal.dict [("error", .str "User not found"), ("timestamp", .int 0)]
  ∧ (∀ s : String, (format_error_response envId db0 404 "User not found").1.body ≠ PyVal.str s)
  ∧ (∀ s : String, (format_success_response envId db0 (.dict [])).1.body ≠ PyVal.str s) :=
  ⟨rfl, fun _ h => PyVal.noConfusion h, fun _ h => PyVal.noConfusion h⟩

/-- C3 counterexample: `create_user` reads the clock once for `created_at`
and again for `updated_at` (two separate `utcnow()` calls); with a clock that
advances between the two calls the created record for the valid submission
`{name: "John Doe", email: "john@example.com"}` has `created_at ≠ updated_at`,
refuting the claimed equality. -/
theorem create_timestamps_differ :
    validate_user_data [("name", .str "John Doe"), ("email", .str "john@example.com")] = .ok []
  ∧ dictGet (create_user envId db0
      [("name", .str "John Doe"), ("email", .str "john@example.com")]).1 "created_at" = some (.int 0)
  ∧ dictGet (create_user envId db0
      [("name", .str "John Doe"), ("email", .str "john@example.com")]).1 "updated_at" = some (.int 1)
  ∧ (some (PyVal.int 0) : Option PyVal) ≠ some (PyVal.int 1) := by
  refine ⟨rfl, rfl, rfl, ?_⟩
  simp only [ne_eq, Option.some.injEq, PyVal.int.injEq]
  decide

/-- C8 counterexample: an Update request with a malformed JSON body but no
`user_id` path parameter is answered 400 "User ID is required", not
"Invalid JSON in request body": the handler checks the path parameter before
looking at the body. -/
theorem update_malformed_no_id_counterexample :
    (update_lambda_handler envId db0 ⟨some .malformed, [], Option.none⟩).1.statusCode = 400
  ∧ bodyErrorMsg (update_lambda_handler envId db0 ⟨some .malformed, [], Option.none⟩).1
      = some (.str "User ID is required")
  ∧ bodyErrorMsg (update_lambda_handler envId db0 ⟨some .malformed, [], Option.none⟩).1
      ≠ some (.str "Invalid JSON in request body") := by
  refine ⟨rfl, rfl, ?_⟩
  intro h
  have h2 : PyVal.str "User ID is required" = PyVal.str "Invalid JSON in request body" :=
    Option.some.inj h
  exact absurd (PyVal.str.inj h2) (by decide)

/-- C5: the effective limit the List handler passes to the scan is the
requested limit clamped into [1,1000] whenever the `limit` query parameter
parses as an integer; it is 100 when no `limit` parameter is supplied (also
when there is no query-string map at all); in particular limit=5000 is
clamped to 1000 and limit=0 to 1. -/
theorem list_limit_clamped (q : List (String × String)) (s : String) (n : Int)
    (hs : assocGet q "limit" = some s) (hn : pyIntString s = some n) :
    list_effective_limit (some q) = .ok (if n > 1000 then 1000 else if n < 1 then 1 else n)
  ∧ (∀ q' : List (String × String), assocGet q' "limit" = Option.none →
      list_effective_limit (some q') = .ok 100)
  ∧ list_effective_limit Option.none = .ok 100
  ∧ list_effective_limit (some [("limit", "5000")]) = .ok 1000
  ∧ list_effective_limit (some [("limit", "0")]) = .ok 1 := by
  refine ⟨?_, ?_, rfl, rfl, rfl⟩
  · simp [list_effective_limit, hs, hn, clampLimit]
  · intro q' hq'
    simp [list_effective_limit, hq', clampLimit]

/-- C5 witness: the clamping theorem applied at the concrete query string
`limit=5000`. -/
theorem list_limit_clamped_witness :
    assocGet [("limit", "5000")] "limit" = some "5000"
  ∧ pyIntString "5000" = some 5000
  ∧ list_effective_limit (some [("limit", "5000")])
      = .ok (if (5000 : Int) > 1000 then 1000 else if (5000 : Int) < 1 then 1 else 5000) :=
  ⟨rfl, rfl, (list_limit_clamped [("limit", "5000")] "5000" 5000 rfl rfl).1⟩

/-- C1: for a user_id with no record in the table, the Update handler, given
a well-formed valid body, answers 404 with error message "User not found";
`update_user` itself returns the absent-result signal (`none`), and the table
is unchanged, so no record is created for that id. -/
theorem update_handler_absent_404 (e : Env) (db : DB) (uid : String) (d : PyDict)
    (hid : uid ≠ "") (habsent : assocGet db.table uid = Option.none)
    (hvalid : validate_user_data d = .ok []) :
    (update_lambda_handler e db
      ⟨some (.parsed (.dict d)), [("user_id", uid)], Option.none⟩).1.statusCode = 404
  ∧ bodyErrorMsg (update_lambda_handler e db
      ⟨some (.parsed (.dict d)), [("user_id", uid)], Option.none⟩).1
      = some (.str "User not found")
  ∧ (update_user e db uid d).1 = Option.none
  ∧ (update_lambda_handler e db
      ⟨some (.parsed (.dict d)), [("user_id", uid)], Option.none⟩).2.table = db.table := by
  have hupd : update_user e db uid d = (Option.none, ⟨db.table, db.tCnt + 1, db.uCnt⟩) := by
    unfold update_user table_update_item
    rw [habsent]
  have hpath : assocGet [("user_id", uid)] "user_id" = some uid := rfl
  simp only [update_lambda_handler, hpath, if_neg hid, hvalid, hupd]
  exact ⟨rfl, rfl, trivial, rfl⟩

/-- C1 witness: the theorem applied at uid "u1", the empty table and the
valid body `{name: "A", email: "a@b"}`. -/
theorem update_handler_absent_404_witness :
    ("u1" : String) ≠ ""
  ∧ assocGet db0.table "u1" = Option.none
  ∧ validate_user_data [("name", .str "A"), ("email", .str "a@b")] = .ok []
  ∧ (update_lambda_handler envId db0
      ⟨some (.parsed (.dict [("name", .str "A"), ("email", .str "a@b")])),
        [("user_id", "u1")], Option.none⟩).1.statusCode = 404 :=
  ⟨by decide, rfl, rfl,
    (update_handler_absent_404 envId db0 "u1" [("name", .str "A"), ("email", .str "a@b")]
      (by decide) rfl rfl).1⟩

/-- C8 (amended): every Create request with a malformed JSON body is answered
400 "Invalid JSON in request body" and every one with no body 400 "Request
body is required" (the Create handler never reads path parameters); the same
holds for Update provided the `user_id` path parameter is present and
non-empty (with it missing or empty the earlier 400 "User ID is required"
answer wins); in all these cases the table is untouched. -/
theorem body_error_400_no_table_op (e : Env) (db : DB) (ev : Event) :
    (ev.body = some .malformed →
      (create_lambda_handler e db ev).1.statusCode = 400
      ∧ bodyErrorMsg (create_lambda_handler e db ev).1 = some (.str "Invalid JSON in request body")
      ∧ (create_lambda_handler e db ev).2.table = db.table)
  ∧ (ev.body = Option.none →
      (create_lambda_handler e db ev).1.statusCode = 400
      ∧ bodyErrorMsg (create_lambda_handler e db ev).1 = some (.str "Request body is required")
      ∧ (create_lambda_handler e db ev).2.table = db.table)
  ∧ (∀ uid : String, assocGet ev.pathParameters "user_id" = some uid → uid ≠ "" →
      (ev.body = some .malformed →
        (update_lambda_handler e db ev).1.statusCode = 400
        ∧ bodyErrorMsg (update_lambda_handler e db ev).1 = some (.str "Invalid JSON in request body")
        ∧ (update_lambda_handler e db ev).2.table = db.table)
      ∧ (ev.body = Option.none →
        (update_lambda_handler e db ev).1.statusCode = 400
        ∧ bodyErrorMsg (update_lambda_handler e db ev).1 = some (.str "Request body is required")
        ∧ (update_lambda_handler e db ev).2.table = db.table)) := by
  obtain ⟨b, p, q⟩ := ev
  refine ⟨fun hb => ?_, fun hb => ?_, fun uid hu hne => ?_⟩
  · subst hb; exact ⟨rfl, rfl, rfl⟩
  · subst hb; exact ⟨rfl, rfl, rfl⟩
  · simp only at hu
    refine ⟨fun hb => ?_, fun hb => ?_⟩ <;> subst hb <;>
      · simp only [update_lambda_handler, hu, if_neg hne]
        exact ⟨rfl, rfl, rfl⟩

/-- C8 witness: the amended theorem applied at the Create event with a
malformed body and no path parameters (the shape of the repo's own
invalid-json test event), and at an Update event with uid "u1" and a
malformed body. -/
theorem body_error_400_no_table_op_witness :
    (create_lambda_handler envId db0 ⟨some .malformed, [], Option.none⟩).1.statusCode = 400
  ∧ assocGet (Event.pathParameters ⟨some .malformed, [("user_id", "u1")], Option.none⟩) "user_id"
      = some "u1"
  ∧ ("u1" : String) ≠ ""
  ∧ (update_lambda_handler envId db0
      ⟨some .malformed, [("user_id", "u1")], Option.none⟩).1.statusCode = 400 :=
  ⟨((body_error_400_no_table_op envId db0 ⟨some .malformed, [], Option.none⟩).1 rfl).1,
    rfl, by decide,
    ((((body_error_400_no_table_op envId db0
      ⟨some .malformed, [("user_id", "u1")], Option.none⟩).2.2 "u1" rfl (by decide)).1 rfl).1)⟩

/-- C3 (amended): creating a record and fetching by the returned id yields
exactly the created record, which agrees with the submission on every
submitted whitelisted field; `created_at` and `updated_at` are the two
successive clock readings, so for a monotone clock `created_at ≤ updated_at`
(the code reads the clock twice, so equality is not guaranteed). -/
theorem create_get_roundtrip (e : Env) (db : DB) (d : PyDict)
    (hm : ∀ i j : Nat, i ≤ j → e.time i ≤ e.time j) :
    get_user (create_user e db d).2 (e.uuid db.uCnt) = some (create_user e db d).1
  ∧ (∀ f ∈ (["name", "email", "age", "phone", "address"] : List String), ∀ v,
      dictGet d f = some v → dictGet (create_user e db d).1 f = some v)
  ∧ dictGet (create_user e db d).1 "created_at" = some (.int (e.time db.tCnt))
  ∧ dictGet (create_user e db d).1 "updated_at" = some (.int (e.time (db.tCnt + 1)))
  ∧ e.time db.tCnt ≤ e.time (db.tCnt + 1) := by
  refine ⟨?_, ?_, ?_, ?_, hm _ _ (Nat.le_succ _)⟩
  · unfold get_user create_user
    exact assocGet_assocSet_self _ _ _
  · intro f hf v hv
    have hhas : dictHas d f = true := by rw [dictHas, hv]; rfl
    fin_cases hf <;> unfold create_user <;> split_ifs <;>
      simp_all [dictGet, dictGetD, dictHas, assocGet_cons]
  · unfold create_user
    split_ifs <;> simp [dictGet, assocGet_cons]
  · unfold create_user
    split_ifs <;> simp [dictGet, assocGet_cons]

/-- C3 witness: the round-trip theorem at the constant clock, the empty table
and the submission `{name: "A"}`. -/
theorem create_get_roundtrip_witness :
    (∀ i j : Nat, i ≤ j → envConst.time i ≤ envConst.time j)
  ∧ get_user (create_user envConst db0 [("name", .str "A")]).2 (envConst.uuid 0)
      = some (create_user envConst db0 [("name", .str "A")]).1 :=
  ⟨fun _ _ _ => Nat.le_refl 0,
    (create_get_roundtrip envConst db0 [("name", .str "A")] (fun _ _ _ => Nat.le_refl 0)).1⟩

/-- Association lookup failure means no binding with that key exists. -/
theorem assocGet_eq_none_not_mem {α : Type} (d : List (String × α)) (k : String)
    (h : assocGet d k = Option.none) : ∀ v, (k, v) ∉ d := by
  induction d with
  | nil => intro v hv; cases hv
  | cons hd tl ih =>
    obtain ⟨k0, v0⟩ := hd
    rw [assocGet_cons] at h
    by_cases h0 : k0 = k
    · rw [if_pos h0] at h; cases h
    · rw [if_neg h0] at h
      intro v hv
      rcases List.mem_cons.mp hv with heq | hm
      · cases heq; exact h0 rfl
      · exact ih h v hm

/-- C4: `update_user` on an existing record applies exactly the whitelisted
payload fields plus `updated_at`: every other stored field (user_id and
created_at included) keeps its value, whitelisted fields absent from the
payload keep theirs, payload keys outside the whitelist are silently ignored,
and `updated_at` becomes the current clock reading, which is ≥ the prior
stored one whenever the prior reading is no later than the clock. -/
theorem update_user_frame (e : Env) (db : DB) (uid : String) (d : PyDict) (item : PyDict)
    (hitem : assocGet db.table uid = some item)
    (hnd : (d.map Prod.fst).Nodup)
    (hts : ∀ t0 : Int, dictGet item "updated_at" = some (.int t0) → t0 ≤ (e.time db.tCnt : Int)) :
    (update_user e db uid d).1 = some (appliedItem e db d item)
  ∧ dictGet (appliedItem e db d item) "updated_at" = some (.int (e.time db.tCnt))
  ∧ (∀ k, k ∉ updateWhitelist → k ≠ "updated_at" →
      dictGet (appliedItem e db d item) k = dictGet item k)
  ∧ (∀ k v, k ∈ updateWhitelist → dictGet d k = some v →
      dictGet (appliedItem e db d item) k = some v)
  ∧ (∀ k, k ∈ updateWhitelist → dictGet d k = Option.none →
      dictGet (appliedItem e db d item) k = dictGet item k)
  ∧ dictGet (appliedItem e db d item) "user_id" = dictGet item "user_id"
  ∧ dictGet (appliedItem e db d item) "created_at" = dictGet item "created_at"
  ∧ (∀ t0 t1 : Int, dictGet item "updated_at" = some (.int t0) →
      dictGet (appliedItem e db d item) "updated_at" = some (.int t1) → t0 ≤ t1) := by
  have hkeys : ∀ kv ∈ d.filter (fun kv => updateWhitelist.contains kv.1),
      kv.1 ∈ updateWhitelist := by
    intro kv hkv
    have h := List.of_mem_filter hkv
    simpa using h
  have hupd2 : dictGet (appliedItem e db d item) "updated_at"
      = some (.int (e.time db.tCnt)) := by
    rw [dictGet, appliedItem, assocGet_foldSet_not_mem, assocGet_assocSet_self]
    intro kv hkv hk
    have hw := hkeys kv hkv
    rw [hk] at hw
    exact absurd hw (by decide)
  have hfr : ∀ k, k ∉ updateWhitelist → k ≠ "updated_at" →
      dictGet (appliedItem e db d item) k = dictGet item k := by
    intro k hkw hku
    rw [dictGet, dictGet, appliedItem, assocGet_foldSet_not_mem, assocGet_assocSet_ne]
    · exact fun h => hku h.symm
    · exact fun kv hkv hk => hkw (hk ▸ hkeys kv hkv)
  refine ⟨?_, hupd2, hfr, ?_, ?_, hfr "user_id" (by decide) (by decide),
    hfr "created_at" (by decide) (by decide), ?_⟩
  · unfold update_user table_update_item appliedItem
    rw [hitem]
  · intro k v hk hv
    have hmem : (k, v) ∈ d := mem_of_assocGet_eq_some d k v hv
    have hndf : ((d.filter (fun kv => updateWhitelist.contains kv.1)).map Prod.fst).Nodup :=
      List.Nodup.sublist (List.Sublist.map Prod.fst (List.filter_sublist d)) hnd
    have hmf : (k, v) ∈ d.filter (fun kv => updateWhitelist.contains kv.1) :=
      List.mem_filter.mpr ⟨hmem, by simpa using hk⟩
    exact assocGet_foldSet_mem _ _ _ _ hndf hmf
  · intro k hk hnone
    rw [dictGet, dictGet, appliedItem, assocGet_foldSet_not_mem, assocGet_assocSet_ne]
    · intro h
      rw [← h] at hk
      exact absurd hk (by decide)
    · intro kv hkv hkk
      have hmem : (kv.1, kv.2) ∈ d := by
        simpa using (List.mem_filter.mp hkv).1
      rw [hkk] at hmem
      exact assocGet_eq_none_not_mem d k hnone kv.2 hmem
  · intro t0 t1 h0 h1
    rw [hupd2] at h1
    have ht1 : t1 = ((e.time db.tCnt : Nat) : Int) := (PyVal.int.inj (Option.some.inj h1)).symm
    rw [ht1]
    exact hts t0 h0

/-- C4 witness: the frame theorem applied at the one-record world `dbA`, the
payload `payloadA` (one whitelisted plus one unknown key) and the identity
clock. -/
theorem update_user_frame_witness :
    assocGet dbA.table "u1" = some itemA
  ∧ (payloadA.map Prod.fst).Nodup
  ∧ (∀ t0 : Int, dictGet itemA "updated_at" = some (.int t0) → t0 ≤ (envId.time dbA.tCnt : Int))
  ∧ (update_user envId dbA "u1" payloadA).1 = some (appliedItem envId dbA payloadA itemA) := by
  refine ⟨rfl, by decide, ?_, ?_⟩
  · intro t0 h
    rw [(PyVal.int.inj (Option.some.inj h)).symm]
    decide
  · exact (update_user_frame envId dbA "u1" payloadA itemA rfl (by decide)
      (fun t0 h => by
        rw [(PyVal.int.inj (Option.some.inj h)).symm]
        decide)).1

/-- C6: a record with a non-empty string name, a non-empty string email
containing "@", an age (when present) that `int()`-parses into [0,150], and a
phone (when present and truthy) whose `str()` stripped of "-" and " " is an
all-digit string of length at least 10, passes validation: the validator
returns the empty error list. -/
theorem validate_valid_record_ok (d : PyDict)
    (hname : ∃ s : String, dictGet d "name" = some (.str s) ∧ s ≠ "")
    (hemail : ∃ s : String, dictGet d "email" = some (.str s) ∧ s ≠ ""
      ∧ strContainsChar s '@' = true)
    (hage : ∀ v, dictGet d "age" = some v → ∃ a : Int, pyToInt v = some a ∧ 0 ≤ a ∧ a ≤ 150)
    (hphone : ∀ v, dictGet d "phone" = some v → pyTruthy v = true →
      pyIsdigit (strRemoveChar (strRemoveChar (pyStrOf v) '-') ' ') = true
      ∧ 10 ≤ (strRemoveChar (strRemoveChar (pyStrOf v) '-') ' ').length) :
    validate_user_data d = .ok [] := by
  obtain ⟨ns, hns, hns0⟩ := hname
  obtain ⟨es, hes, hes0, hesAt⟩ := hemail
  have h1 : validateAge d [] = [] := by
    cases hv : dictGet d "age" with
    | none => simp [validateAge, dictHas, hv]
    | some v =>
      obtain ⟨a, ha, ha0, ha150⟩ := hage v hv
      have hno : ¬(a < 0 ∨ a > 150) := by omega
      simp [validateAge, dictHas, dictGetD, hv, ha, hno]
  have h2 : validatePhone d [] = [] := by
    cases hv : dictGet d "phone" with
    | none => simp [validatePhone, dictHas, hv]
    | some v =>
      cases htr : pyTruthy v with
      | false => simp [validatePhone, dictHas, dictGetD, hv, htr]
      | true =>
        obtain ⟨hdg, hlen⟩ := hphone v hv htr
        have hlen2 : ¬((strRemoveChar (strRemoveChar (pyStrOf v) '-') ' ').length < 10) := by
          omega
        simp [validatePhone, phoneDigits, dictHas, dictGetD, hv, htr, hdg, hlen2]
  have h0 : validateNameEmail d = .ok [] := by
    simp [validateNameEmail, dictGetD, hns, hes, pyTruthy, hns0, hes0, pyContainsAt, hesAt]
  simp [validate_user_data, h0, h1, h2]

/-- C6 witness: the theorem at a fully populated valid record. -/
theorem validate_valid_record_ok_witness :
    validate_user_data [("name", .str "John Doe"), ("email", .str "john@example.com"),
      ("age", .int 30), ("phone", .str "123-456-7890")] = .ok [] :=
  validate_valid_record_ok _
    ⟨"John Doe", rfl, by decide⟩
    ⟨"john@example.com", rfl, by decide, rfl⟩
    (fun v h => by
      cases Option.some.inj h
      exact ⟨30, rfl, by decide, by decide⟩)
    (fun v h htr => by
      cases Option.some.inj h
      exact ⟨rfl, by decide⟩)

/-- Later validation rules only append to the error list. -/
theorem mem_validatePhone (d : PyDict) (l : List String) (x : String) (hx : x ∈ l) :
    x ∈ validatePhone d l := by
  unfold validatePhone
  split_ifs <;> first | exact hx | exact List.mem_append_left _ hx

/-- Only the email check of the name/email stage can raise. -/
theorem validate_user_data_shape (d : PyDict) (errs : List String)
    (hok : validate_user_data d = .ok errs) :
    ∃ e, errs = validatePhone d (validateAge d e) := by
  unfold validate_user_data at hok
  split at hok
  · exact Except.noConfusion hok
  · exact ⟨_, (Except.ok.inj hok).symm⟩

/-- C7: whenever validation returns an error list at all and the record
carries an age value that is non-numeric or outside [0,150], the returned
list contains an age error ("Age must be between 0 and 150" for out-of-range
values, "Age must be a number" for non-numeric ones). -/
theorem validate_age_error (d : PyDict) (errs : List String) (v : PyVal)
    (hok : validate_user_data d = .ok errs)
    (hv : dictGet d "age" = some v)
    (hbad : pyToInt v = Option.none ∨ ∃ a : Int, pyToInt v = some a ∧ (a < 0 ∨ 150 < a)) :
    "Age must be between 0 and 150" ∈ errs ∨ "Age must be a number" ∈ errs := by
  obtain ⟨e, rfl⟩ := validate_user_data_shape d errs hok
  rcases hbad with hnone | ⟨a, ha, hrange⟩
  · refine Or.inr (mem_validatePhone _ _ _ ?_)
    rw [validateAge, if_pos (by simp [dictHas, hv])]
    simp only [dictGetD, hv, Option.getD_some, hnone]
    exact List.mem_append_right _ (by simp)
  · refine Or.inl (mem_validatePhone _ _ _ ?_)
    rw [validateAge, if_pos (by simp [dictHas, hv])]
    simp only [dictGetD, hv, Option.getD_some, ha]
    rw [if_pos hrange]
    exact List.mem_append_right _ (by simp)

/-- C7 witness: the theorem at a record whose age is the non-numeric string
"abc". -/
theorem validate_age_error_witness :
    validate_user_data [("name", .str "A"), ("email", .str "a@b"), ("age", .str "abc")]
      = .ok ["Age must be a number"]
  ∧ dictGet [("name", .str "A"), ("email", .str "a@b"), ("age", .str "abc")] "age"
      = some (.str "abc")
  ∧ ("Age must be between 0 and 150" ∈ ["Age must be a number"]
      ∨ "Age must be a number" ∈ ["Age must be a number"]) :=
  ⟨rfl, rfl,
    validate_age_error [("name", .str "A"), ("email", .str "a@b"), ("age", .str "abc")]
      ["Age must be a number"] (.str "abc") rfl rfl (Or.inl rfl)⟩
